
import Mathlib

/-!
Verification of the Lens patent-search client (`src/app.py`).

The source is a single Python file: a retrying HTTP POST helper
(`_post_with_retry`), a structured-query builder (`build_query`), a record
normalizer (`extract_rows`), a cursor-based paginated search
(`lens_search_with_scroll`), and a thin UI run handler.

Python values flowing through the normalizer and query builder are modelled
by the inductive type `PyVal` (None, str, int, list, dict).  Dictionary
access `d.get(k, default)` on a non-dict raises `AttributeError` in Python;
it is modelled by `pyGet` returning `Except String PyVal`.  Python truthiness
is `pyTruthy`.  The upstream HTTP service is modelled as a sequence of
responses indexed by request number; `time.sleep` is recorded as data (the
list of requested sleep durations) rather than performed.
-/

/-- A Python value: `None`, `str`, `int`, `list`, or `dict`
(dicts keep insertion order, keys unique, modelled as association lists). -/
inductive PyVal where
  | none : PyVal
  | str : String → PyVal
  | int : Int → PyVal
  | list : List PyVal → PyVal
  | dict : List (String × PyVal) → PyVal

/-- Python truthiness: `None`, `""`, `0`, `[]`, `\x7b\x7d` are falsy. -/
def pyTruthy : PyVal → Bool
  | .none => false
  | .str s => !(s == "")
  | .int n => !(n == 0)
  | .list xs => !xs.isEmpty
  | .dict kvs => !kvs.isEmpty

/-- First value bound to key `k`, if any (Python dict keys are unique). -/
def lookupKey (kvs : List (String × PyVal)) (k : String) : Option PyVal :=
  match kvs with
  | [] => Option.none
  | (k', v) :: rest => if k' == k then some v else lookupKey rest k

/-- `d.get(k, default)` on a value already known to be a dict. -/
def pyGetD (kvs : List (String × PyVal)) (k : String) (default : PyVal) : PyVal :=
  (lookupKey kvs k).getD default

/-- `v.get(k, default)`: succeeds when `v` is a dict, otherwise raises
`AttributeError` (any non-dict Python object lacks a `get` method). -/
def pyGet (v : PyVal) (k : String) (default : PyVal) : Except String PyVal :=
  match v with
  | .dict kvs => .ok (pyGetD kvs k default)
  | _ => .error "AttributeError"

/-- Python `a or b`: `a` when truthy, else `b`. -/
def pyOr (a b : PyVal) : PyVal :=
  if pyTruthy a then a else b

/-- Python `p.get(k1, "") or p.get(k2, "")` (short-circuiting). -/
def getOr2 (p : PyVal) (k1 k2 : String) : Except String PyVal :=
  match pyGet p k1 (.str "") with
  | .error e => .error e
  | .ok a => if pyTruthy a then .ok a else pyGet p k2 (.str "")

/-- `v` is `None` (Python `x is None`). -/
def pyIsNone : PyVal → Bool
  | .none => true
  | _ => false

/-- `v` is a Python string. -/
def pyIsStr : PyVal → Bool
  | .str _ => true
  | _ => false

mutual

/-- Python `str(v)`, as used by f-string interpolation. -/
def pyToStr : PyVal → String
  | .none => "None"
  | .str s => s
  | .int n => toString n
  | .list xs => "[" ++ pyReprList xs ++ "]"
  | .dict kvs => "\x7b" ++ pyReprDict kvs ++ "\x7d"

/-- Python `repr(v)` (used for elements nested inside containers). -/
def pyRepr : PyVal → String
  | .none => "None"
  | .str s => "'" ++ s ++ "'"
  | .int n => toString n
  | .list xs => "[" ++ pyReprList xs ++ "]"
  | .dict kvs => "\x7b" ++ pyReprDict kvs ++ "\x7d"

/-- Comma-separated reprs of list elements. -/
def pyReprList : List PyVal → String
  | [] => ""
  | [x] => pyRepr x
  | x :: y :: rest => pyRepr x ++ ", " ++ pyReprList (y :: rest)

/-- Comma-separated `'key': value` reprs of dict entries. -/
def pyReprDict : List (String × PyVal) → String
  | [] => ""
  | [(k, v)] => "'" ++ k ++ "': " ++ pyRepr v
  | (k, v) :: e :: rest => "'" ++ k ++ "': " ++ pyRepr v ++ ", " ++ pyReprDict (e :: rest)

end

/-- The characters removed by Python `str.strip()` with no argument
(ASCII whitespace; the claims never exercise the wider Unicode set). -/
def isPySpace (c : Char) : Bool :=
  c == ' ' || c == '\t' || c == '\n' || c == '\r' || c == '\x0b' || c == '\x0c'

/-- `str.strip()` on the character list: drop whitespace from both ends. -/
def pyStripList (l : List Char) : List Char :=
  ((l.dropWhile isPySpace).reverse.dropWhile isPySpace).reverse

/-- Python `s.strip()`. -/
def pyStrip (s : String) : String :=
  String.mk (pyStripList s.data)

/-!
## RetryingTransport — `_post_with_retry` (src/app.py lines 11–28)
-/

/-- An HTTP response: status code, raw body text (`r.text`) and parsed JSON
body (`r.json()`, already as a `PyVal`). -/
structure HttpResponse where
  status : Nat
  text : String
  body : PyVal

/-- The `for attempt in range(max_retries + 1)` loop of `_post_with_retry`
(lines 21–28).  `resp i` is the response to the i-th POST of this call;
`remaining` counts the attempts still allowed after the current one;
`sleeps` records every `time.sleep` duration requested, in order.  A 429
sleeps `backoff_sec * (attempt + 1)` and retries; any other status returns
immediately; when attempts run out the last (429) response is returned by
the trailing `return r` of line 28. -/
def postLoop (resp : Nat → HttpResponse) (backoff_sec : ℚ)
    (attempt remaining : Nat) (sleeps : List ℚ) : HttpResponse × List ℚ :=
  let r := resp attempt
  if r.status = 429 then
    let sleeps' := sleeps ++ [backoff_sec * ((attempt + 1 : ℕ) : ℚ)]
    match remaining with
    | 0 => (r, sleeps')
    | n + 1 => postLoop resp backoff_sec (attempt + 1) n sleeps'
  else (r, sleeps)
termination_by remaining

/-- `_post_with_retry(headers, payload, timeout, max_retries, backoff_sec)`:
attempts `0 .. max_retries`, returning the final response together with the
list of backoff sleeps performed.  (The model is a total function: there is
no exception path in the source either.) -/
def post_with_retry (resp : Nat → HttpResponse) (max_retries : Nat)
    (backoff_sec : ℚ) : HttpResponse × List ℚ :=
  postLoop resp backoff_sec 0 max_retries []

/-!
## QueryBuilder — `build_query` (src/app.py lines 31–81)
-/

/-- `\x7b"match": \x7bfield: keyword\x7d\x7d`, the basic match clause. -/
def matchClause (field keyword : String) : PyVal :=
  .dict [("match", .dict [(field, .str keyword)])]

/-- The range filter appended when `date_from` is truthy:
`\x7b"range": \x7b"date_published": \x7b"gte": date_from\x7d\x7d\x7d`. -/
def rangeClause (date_from : String) : PyVal :=
  .dict [("range", .dict [("date_published", .dict [("gte", .str date_from)])])]

/-- `build_query(keyword, scope, date_from)`: strips the keyword, selects the
must-clause by scope (`title`, `abstract`, `title+abstract`, default
title+abstract+claim), and appends a `filter` list with one range clause when
`date_from` is truthy (in Python, a non-`None` non-empty string). -/
def build_query (keyword scope : String) (date_from : Option String) : PyVal :=
  let kw := pyStrip keyword
  let must : List PyVal :=
    if scope == "title" then [matchClause "title" kw]
    else if scope == "abstract" then [matchClause "abstract" kw]
    else if scope == "title+abstract" then
      [.dict [("bool", .dict [
        ("should", .list [matchClause "title" kw, matchClause "abstract" kw]),
        ("minimum_should_match", .int 1)])]]
    else
      [.dict [("bool", .dict [
        ("should", .list [matchClause "title" kw, matchClause "abstract" kw,
          matchClause "claim" kw]),
        ("minimum_should_match", .int 1)])]]
  let filters : List PyVal :=
    match date_from with
    | some d => if d == "" then [] else [rangeClause d]
    | Option.none => []
  if filters.isEmpty then .dict [("bool", .dict [("must", .list must)])]
  else .dict [("bool", .dict [("must", .list must), ("filter", .list filters)])]

/-!
## RecordNormalizer — `extract_rows` (src/app.py lines 84–125)
-/

/-- One output row: the six data fields hold the Python values actually stored
(strings for well-behaved input), the two link fields are always Python
strings because they come from f-strings. -/
structure Row where
  lens_id : PyVal
  title : PyVal
  jurisdiction : PyVal
  doc_number : PyVal
  kind : PyVal
  date_published : PyVal
  lens_link : String
  google_patents_link : String

/-- Lines 95–102: the title fallback chain.  A mapping yields its `text`
field falling back to `title`; a non-empty list applies the same chain to its
first element when that is (after `or \x7b\x7d`) a mapping; anything else
yields the initial empty string. -/
def titleText (inv_title : PyVal) : Except String PyVal :=
  match inv_title with
  | .dict _ => getOr2 inv_title "text" "title"
  | .list (t :: _) =>
    let t0 := pyOr t (.dict [])
    (match t0 with
     | .dict _ => getOr2 t0 "text" "title"
     | _ => .ok (.str ""))
  | _ => .ok (.str "")

/-- Lines 106–123: the two derived links and the row dict itself.
`lens_link` is always built; `google_patents_link` needs truthy jurisdiction
and doc_number, with the kind suffix only when kind is truthy too. -/
def mkRow (lens_id title_text jurisdiction doc_number kind date_published : PyVal) : Row :=
  let lens_link := "https://www.lens.org/lens/patent/" ++ pyToStr lens_id
  let google_link :=
    if pyTruthy jurisdiction && pyTruthy doc_number && pyTruthy kind then
      "https://patents.google.com/patent/" ++ pyToStr jurisdiction ++
        pyToStr doc_number ++ pyToStr kind
    else if pyTruthy jurisdiction && pyTruthy doc_number then
      "https://patents.google.com/patent/" ++ pyToStr jurisdiction ++
        pyToStr doc_number
    else ""
  ⟨lens_id, title_text, jurisdiction, doc_number, kind, date_published,
    lens_link, google_link⟩

/-- Normalization of a single record, following src/app.py lines 86–123
statement by statement; a raised `AttributeError` becomes `Except.error`. -/
def extract_row (item : PyVal) : Except String Row :=
  match pyGet item "lens_id" (.str "") with
  | .error e => .error e
  | .ok lens_id =>
  match pyGet item "biblio" (.dict []) with
  | .error e => .error e
  | .ok biblio0 =>
  match pyGet (pyOr biblio0 (.dict [])) "publication_reference" (.dict []) with
  | .error e => .error e
  | .ok pub_ref0 =>
  match getOr2 (pyOr pub_ref0 (.dict [])) "jurisdiction" "country" with
  | .error e => .error e
  | .ok jurisdiction =>
  match getOr2 (pyOr pub_ref0 (.dict [])) "doc_number" "document_number" with
  | .error e => .error e
  | .ok doc_number =>
  match pyGet (pyOr pub_ref0 (.dict [])) "kind" (.str "") with
  | .error e => .error e
  | .ok kind =>
  match pyGet (pyOr biblio0 (.dict [])) "invention_title" .none with
  | .error e => .error e
  | .ok inv_title =>
  match titleText inv_title with
  | .error e => .error e
  | .ok title_text =>
  match getOr2 item "date_published" "publication_date" with
  | .error e => .error e
  | .ok date_published =>
  .ok (mkRow lens_id title_text jurisdiction doc_number kind date_published)

/-- `extract_rows(data_items)`: one row per record, first raised error aborts
the whole extraction (the Python loop propagates the exception). -/
def extract_rows : List PyVal → Except String (List Row)
  | [] => .ok []
  | item :: rest =>
    match extract_row item with
    | .error e => .error e
    | .ok row =>
      match extract_rows rest with
      | .error e => .error e
      | .ok rows => .ok (row :: rows)

/-- The nested leaf `k` of the dict `kvs` is absent or a Python string. -/
def isStrOrAbsent (kvs : List (String × PyVal)) (k : String) : Bool :=
  match lookupKey kvs k with
  | Option.none => true
  | some (.str _) => true
  | _ => false

/-- `invention_title` values on which the title chain yields a string:
any value is allowed except a mapping (or a list headed by a mapping) whose
`text`/`title` entries are present with non-string values. -/
def goodTitle : PyVal → Bool
  | .dict kvs => isStrOrAbsent kvs "text" && isStrOrAbsent kvs "title"
  | .list (t :: _) =>
    (match t with
     | .dict kvs => isStrOrAbsent kvs "text" && isStrOrAbsent kvs "title"
     | _ => true)
  | _ => true

/-- `publication_reference` values: absent/null/mapping with string-or-absent
leaves (a list of mappings here makes the Python code raise). -/
def goodPubRef : PyVal → Bool
  | .none => true
  | .dict p => isStrOrAbsent p "jurisdiction" && isStrOrAbsent p "country" &&
      isStrOrAbsent p "doc_number" && isStrOrAbsent p "document_number" &&
      isStrOrAbsent p "kind"
  | _ => false

/-- `biblio` values: absent/null/mapping whose nested fields are good. -/
def goodBiblio : PyVal → Bool
  | .none => true
  | .dict b => goodPubRef (pyGetD b "publication_reference" (.dict [])) &&
      goodTitle (pyGetD b "invention_title" .none)
  | _ => false

/-- A raw record on which normalization is total and string-valued: a mapping
whose intermediate mappings are absent/null/mappings and whose leaf fields of
interest are absent or strings. -/
def goodRecord : PyVal → Bool
  | .dict kvs => isStrOrAbsent kvs "lens_id" && isStrOrAbsent kvs "date_published" &&
      isStrOrAbsent kvs "publication_date" && goodBiblio (pyGetD kvs "biblio" (.dict []))
  | _ => false

/-- All six data fields of the row are Python strings (the two link fields
are strings by construction). -/
def rowFieldsAreStrings (row : Row) : Bool :=
  pyIsStr row.lens_id && pyIsStr row.title && pyIsStr row.jurisdiction &&
  pyIsStr row.doc_number && pyIsStr row.kind && pyIsStr row.date_published

/-- The link contract of a constructed row, phrased over its own fields. -/
def linkSpec (row : Row) : Prop :=
  row.lens_link = "https://www.lens.org/lens/patent/" ++ pyToStr row.lens_id ∧
  row.google_patents_link =
    (if pyTruthy row.jurisdiction && pyTruthy row.doc_number && pyTruthy row.kind then
      "https://patents.google.com/patent/" ++ pyToStr row.jurisdiction ++
        pyToStr row.doc_number ++ pyToStr row.kind
    else if pyTruthy row.jurisdiction && pyTruthy row.doc_number then
      "https://patents.google.com/patent/" ++ pyToStr row.jurisdiction ++
        pyToStr row.doc_number
    else "")

/-- A record with string `lens_id` and a publication reference holding string
jurisdiction / doc_number / kind, as produced by the upstream happy path. -/
def recordOf (lid j d k : String) : PyVal :=
  .dict [("lens_id", .str lid),
    ("biblio", .dict [("publication_reference", .dict [
      ("jurisdiction", .str j), ("doc_number", .str d), ("kind", .str k)])])]

/-!
## PaginatedSearchClient — `lens_search_with_scroll` (src/app.py lines 128–208)
-/

/-- The classified failures raised by the pagination loop (lines 174–182):
401 → auth failure, 403 → permission failure, any other non-200 → transport
failure carrying the status code and the raw response body text.  `pyError`
propagates a Python-level exception raised while reading the body or
normalizing records.  An error return carries no rows: every classified
failure aborts the whole search with no partial result. -/
inductive SearchError where
  | authError : String → SearchError
  | permissionError : String → SearchError
  | transportError : Nat → String → SearchError
  | pyError : String → SearchError

/-- The `debug` diagnostics dict (lines 152–157), in source field order. -/
structure Debug where
  pages : Nat
  scroll_id : PyVal
  last_status : Option Nat
  returned : Nat

/-- The `include` field list (lines 144–150). -/
def includeFields : List String :=
  ["lens_id", "doc_key", "biblio.publication_reference", "biblio.invention_title",
    "date_published"]

/-- Request headers (lines 139–142): stripped bearer token, JSON content. -/
def searchHeaders (token : String) : List (String × String) :=
  [("Authorization", "Bearer " ++ pyStrip token),
    ("Content-Type", "application/json")]

/-- The first-page payload (lines 159–164); note `size = min(100, max_results)`. -/
structure InitialPayload where
  query : PyVal
  includeList : List String
  scroll : String
  size : Int

/-- Lines 159–164. -/
def initialPayload (keyword scope : String) (date_from : Option String)
    (max_results : Int) (scroll_ttl : String) : InitialPayload :=
  { query := build_query keyword scope date_from,
    includeList := includeFields,
    scroll := scroll_ttl,
    size := min 100 max_results }

/-- The `while len(all_rows) < max_results` loop (lines 169–207).  `resps n`
is the response `_post_with_retry` hands back for the (n+1)-st page request;
the number of requests issued so far is exactly `dbg.pages`.  The raised
`RuntimeError`s of lines 178–182 become `SearchError` values.  The scroll
payload replacement (lines 201–204) and the inter-page sleep (line 206) only
affect what the transport sees and the wall clock, so the response sequence
abstraction absorbs them.  A truthy non-list `data` value would make the
Python loop raise while iterating it; this surfaces as `pyError`. -/
def searchLoop (resps : Nat → HttpResponse) (max_results : Int)
    (all_rows : List Row) (scroll_id : PyVal) (dbg : Debug) :
    Except SearchError (List Row × Debug) :=
  if hlt : (all_rows.length : Int) < max_results then
    let r := resps dbg.pages
    let dbg1 : Debug := { dbg with last_status := some r.status, pages := dbg.pages + 1 }
    if r.status = 204 then .ok (all_rows, dbg1)
    else if r.status = 401 then
      .error (.authError "401 Unauthorized: bad token or API access not enabled")
    else if r.status = 403 then
      .error (.permissionError "403 Forbidden: API access or plan does not allow")
    else if r.status ≠ 200 then
      .error (.transportError r.status r.text)
    else
      match r.body with
      | .dict js =>
        let data_items := pyOr (pyGetD js "data" .none) (.list [])
        match data_items with
        | .list [] => .ok (all_rows, dbg1)
        | .list (x :: rest) =>
          let scroll1 := if pyIsNone scroll_id then pyGetD js "scroll_id" .none
            else scroll_id
          let dbg2 := if pyIsNone scroll_id then { dbg1 with scroll_id := scroll1 }
            else dbg1
          (match hrows : extract_rows (x :: rest) with
          | .error e => .error (.pyError e)
          | .ok rows =>
            let all_rows1 := all_rows ++ rows.take (max_results - all_rows.length).toNat
            let dbg3 := { dbg2 with returned := all_rows1.length }
            if hbrk : pyTruthy scroll1 = false ∨ max_results ≤ (all_rows1.length : Int) then
              .ok (all_rows1, dbg3)
            else searchLoop resps max_results all_rows1 scroll1 dbg3)
        | _ =>
          if pyTruthy data_items = false then .ok (all_rows, dbg1)
          else .error (.pyError "TypeError")
      | _ => .error (.pyError "AttributeError")
  else .ok (all_rows, dbg)
termination_by (max_results - all_rows.length).toNat
decreasing_by
  have hne : rows ≠ [] := by
    intro hnil
    subst hnil
    cases hx : extract_row x with
    | error e =>
      unfold extract_rows at hrows
      rw [hx] at hrows
      exact Except.noConfusion hrows
    | ok row =>
      unfold extract_rows at hrows
      rw [hx] at hrows
      cases hr : extract_rows rest with
      | error e => rw [hr] at hrows; exact Except.noConfusion hrows
      | ok rows2 =>
        rw [hr] at hrows
        injection hrows with h'
        exact List.noConfusion h'
  have hpos : 0 < rows.length := List.length_pos.mpr hne
  simp only [List.length_append, List.length_take] at hbrk ⊢
  rcases not_or.mp hbrk with ⟨h1, h2⟩
  push_neg at h2
  omega

/-- `lens_search_with_scroll(token, keyword, scope, date_from, max_results,
scroll_ttl, ...)` (lines 128–208): builds headers and the initial payload
(`searchHeaders`, `initialPayload`) and runs the pagination loop starting
from an empty accumulator, `scroll_id = None`, and the zeroed diagnostics
dict of lines 152–157. -/
def lens_search_with_scroll (resps : Nat → HttpResponse)
    (max_results : Int) : Except SearchError (List Row × Debug) :=
  searchLoop resps max_results [] .none ⟨0, .none, Option.none, 0⟩

/-- Outcome of the Streamlit run handler: either the token guard fired
(`st.error` + `st.stop()`, lines 234–236) or the search ran. -/
inductive UIOutcome where
  | usageError : UIOutcome
  | ran : Except SearchError (List Row × Debug) → UIOutcome

/-- The `if run:` handler (lines 233–247): a token that is empty after
`strip()` is rejected before `lens_search_with_scroll` — and hence before
any network request — otherwise the search is invoked. -/
def runSearchHandler (resps : Nat → HttpResponse) (token : String)
    (max_results : Int) : UIOutcome :=
  if pyStrip token = "" then .usageError
  else .ran (lens_search_with_scroll resps max_results)

/-- Upstream scenario: every page request is answered 200 with the n-th data
list and a stable scroll id. -/
def pages3 (xs0 xs1 xs2 : List PyVal) (sid : String) : Nat → HttpResponse :=
  fun n =>
    if n = 0 then ⟨200, "", .dict [("data", .list xs0), ("scroll_id", .str sid)]⟩
    else if n = 1 then ⟨200, "", .dict [("data", .list xs1), ("scroll_id", .str sid)]⟩
    else ⟨200, "", .dict [("data", .list xs2), ("scroll_id", .str sid)]⟩

/-- Upstream scenario: every page request is answered 200 with the same data
list and scroll id. -/
def onePage (xs : List PyVal) (sid : String) : Nat → HttpResponse :=
  fun _ => ⟨200, "", .dict [("data", .list xs), ("scroll_id", .str sid)]⟩

/-- An empty record normalizes to the all-empty row. -/
def emptyRow : Row :=
  mkRow (.str "") (.str "") (.str "") (.str "") (.str "") (.str "")

/-!
## Properties

All theorems over the embedding above: helper lemmas first, then the
claim-level statements and their witnesses.
-/

theorem dropWhile_dropWhile (p : Char → Bool) (l : List Char) :
    (l.dropWhile p).dropWhile p = l.dropWhile p := by
  induction l with
  | nil => rfl
  | cons c t ih =>
    by_cases h : p c
    · simp [List.dropWhile, h, ih]
    · simp [List.dropWhile, h]

theorem head?_dropWhile_false (p : Char → Bool) (l : List Char) (c : Char)
    (h : (l.dropWhile p).head? = some c) : p c = false := by
  induction l with
  | nil => simp [List.dropWhile] at h
  | cons a t ih =>
    by_cases ha : p a
    · simp [List.dropWhile, ha] at h
      exact ih h
    · simp [List.dropWhile, ha] at h
      subst h
      simp [ha]

theorem dropWhile_of_head_false (p : Char → Bool) (l : List Char)
    (h : ∀ c, l.head? = some c → p c = false) : l.dropWhile p = l := by
  cases l with
  | nil => rfl
  | cons a t =>
    have := h a rfl
    simp [List.dropWhile, this]

theorem pyStripList_idem (l : List Char) :
    pyStripList (pyStripList l) = pyStripList l := by
  unfold pyStripList
  set A := l.dropWhile isPySpace with hA
  set C := A.reverse.dropWhile isPySpace with hC
  have hCdrop : C.reverse.dropWhile isPySpace = C.reverse := by
    apply dropWhile_of_head_false
    intro c hc
    rw [List.head?_reverse] at hc
    have hlast : A.reverse.getLast? = some c := by
      conv_lhs => rw [← List.takeWhile_append_dropWhile isPySpace A.reverse]
      rw [List.getLast?_append, ← hC, hc]
      rfl
    rw [List.getLast?_reverse] at hlast
    rw [hA] at hlast
    exact head?_dropWhile_false isPySpace l c hlast
  rw [hCdrop, List.reverse_reverse, hC, dropWhile_dropWhile]

theorem pyStrip_idem (s : String) : pyStrip (pyStrip s) = pyStrip s := by
  unfold pyStrip
  rw [show (String.mk (pyStripList s.data)).data = pyStripList s.data from rfl,
    pyStripList_idem]

theorem postLoop_spec (resp : Nat → HttpResponse) (backoff_sec : ℚ) (k : Nat) :
    ∀ (attempt remaining : Nat) (sleeps : List ℚ), k ≤ remaining →
    (∀ i, i < k → (resp (attempt + i)).status = 429) →
    (resp (attempt + k)).status ≠ 429 →
    postLoop resp backoff_sec attempt remaining sleeps =
      (resp (attempt + k),
        sleeps ++ (List.range k).map (fun i => backoff_sec * ((attempt + i + 1 : ℕ) : ℚ))) := by
  induction k with
  | zero =>
    intro attempt remaining sleeps _ _ hstop
    rw [Nat.add_zero] at hstop
    unfold postLoop
    simp [hstop]
  | succ n ih =>
    intro attempt remaining sleeps hk h429 hstop
    obtain ⟨m, rfl⟩ : ∃ m, remaining = m + 1 := by
      cases remaining with
      | zero => omega
      | succ m => exact ⟨m, rfl⟩
    have h0 : (resp attempt).status = 429 := by simpa using h429 0 (Nat.succ_pos n)
    unfold postLoop
    simp only [h0, eq_self_iff_true, ite_true]
    rw [ih (attempt + 1) m (sleeps ++ [backoff_sec * ((attempt + 1 : ℕ) : ℚ)])
      (by omega)
      (fun i hi => by
        have := h429 (i + 1) (by omega)
        rwa [show attempt + (i + 1) = attempt + 1 + i by omega] at this)
      (by rwa [show attempt + 1 + n = attempt + (n + 1) by omega])]
    rw [show attempt + 1 + n = attempt + (n + 1) by omega, List.append_assoc]
    refine congrArg _ (congrArg _ ?_)
    rw [List.singleton_append, List.range_succ_eq_map, List.map_cons, List.map_map]
    have hfun : ((fun i => backoff_sec * ((attempt + i + 1 : ℕ) : ℚ)) ∘ Nat.succ) =
        (fun i => backoff_sec * ((attempt + 1 + i + 1 : ℕ) : ℚ)) := by
      funext i
      simp only [Function.comp_apply]
      congr 1
      push_cast
      ring
    rw [hfun]

theorem postLoop_all429 (resp : Nat → HttpResponse) (backoff_sec : ℚ) :
    ∀ (remaining attempt : Nat) (sleeps : List ℚ),
    (∀ i, i ≤ attempt + remaining → (resp i).status = 429) →
    (postLoop resp backoff_sec attempt remaining sleeps).1 = resp (attempt + remaining) := by
  intro remaining
  induction remaining with
  | zero =>
    intro attempt sleeps h
    unfold postLoop
    simp [h attempt (by omega)]
  | succ m ih =>
    intro attempt sleeps h
    unfold postLoop
    simp only [h attempt (by omega), eq_self_iff_true, ite_true]
    rw [ih (attempt + 1) (sleeps ++ [backoff_sec * ((attempt + 1 : ℕ) : ℚ)])
      (fun i hi => h i (by omega))]
    congr 1
    omega

theorem isStrOrAbsent_getD (kvs : List (String × PyVal)) (k : String)
    (h : isStrOrAbsent kvs k = true) : ∃ s, pyGetD kvs k (.str "") = .str s := by
  unfold isStrOrAbsent at h
  unfold pyGetD
  cases hl : lookupKey kvs k with
  | none => exact ⟨"", by simp [hl]⟩
  | some v =>
    rw [hl] at h
    cases v with
    | str s => exact ⟨s, by simp [hl]⟩
    | none => simp at h
    | int n => simp at h
    | list xs => simp at h
    | dict d => simp at h

theorem getOr2_dict (p : List (String × PyVal)) (k1 k2 : String)
    (h1 : isStrOrAbsent p k1 = true) (h2 : isStrOrAbsent p k2 = true) :
    ∃ s, getOr2 (.dict p) k1 k2 = .ok (.str s) := by
  obtain ⟨s1, hs1⟩ := isStrOrAbsent_getD p k1 h1
  obtain ⟨s2, hs2⟩ := isStrOrAbsent_getD p k2 h2
  simp only [getOr2, pyGet, hs1, hs2]
  by_cases ht : pyTruthy (.str s1) = true
  · exact ⟨s1, by simp [ht]⟩
  · exact ⟨s2, by simp [Bool.not_eq_true] at ht; simp [ht]⟩

theorem goodPubRef_or (v : PyVal) (h : goodPubRef v = true) :
    ∃ p, pyOr v (.dict []) = .dict p ∧ isStrOrAbsent p "jurisdiction" = true ∧
      isStrOrAbsent p "country" = true ∧ isStrOrAbsent p "doc_number" = true ∧
      isStrOrAbsent p "document_number" = true ∧ isStrOrAbsent p "kind" = true := by
  cases v with
  | none => exact ⟨[], by simp [pyOr, pyTruthy], by simp [isStrOrAbsent, lookupKey]⟩
  | dict p =>
    cases p with
    | nil => exact ⟨[], by simp [pyOr, pyTruthy], by simp [isStrOrAbsent, lookupKey]⟩
    | cons e rest =>
      refine ⟨e :: rest, by simp [pyOr, pyTruthy], ?_⟩
      simp only [goodPubRef, Bool.and_eq_true] at h
      exact ⟨h.1.1.1.1, h.1.1.1.2, h.1.1.2, h.1.2, h.2⟩
  | str s => simp [goodPubRef] at h
  | int n => simp [goodPubRef] at h
  | list xs => simp [goodPubRef] at h

theorem goodBiblio_or (v : PyVal) (h : goodBiblio v = true) :
    ∃ b, pyOr v (.dict []) = .dict b ∧
      goodPubRef (pyGetD b "publication_reference" (.dict [])) = true ∧
      goodTitle (pyGetD b "invention_title" .none) = true := by
  cases v with
  | none =>
    exact ⟨[], by simp [pyOr, pyTruthy],
      by simp [pyGetD, lookupKey, goodPubRef, isStrOrAbsent],
      by simp [pyGetD, lookupKey, goodTitle]⟩
  | dict b =>
    cases b with
    | nil =>
      exact ⟨[], by simp [pyOr, pyTruthy],
        by simp [pyGetD, lookupKey, goodPubRef, isStrOrAbsent],
        by simp [pyGetD, lookupKey, goodTitle]⟩
    | cons e rest =>
      refine ⟨e :: rest, by simp [pyOr, pyTruthy], ?_⟩
      simp only [goodBiblio, Bool.and_eq_true] at h
      exact h
  | str s => simp [goodBiblio] at h
  | int n => simp [goodBiblio] at h
  | list xs => simp [goodBiblio] at h

theorem goodTitle_ok (v : PyVal) (h : goodTitle v = true) :
    ∃ s, titleText v = .ok (.str s) := by
  cases v with
  | none => exact ⟨"", rfl⟩
  | str s => exact ⟨"", rfl⟩
  | int n => exact ⟨"", rfl⟩
  | dict kvs =>
    simp only [goodTitle, Bool.and_eq_true] at h
    obtain ⟨s, hs⟩ := getOr2_dict kvs "text" "title" h.1 h.2
    exact ⟨s, by simpa [titleText] using hs⟩
  | list xs =>
    cases xs with
    | nil => exact ⟨"", rfl⟩
    | cons t rest =>
      cases t with
      | dict kvs =>
        simp only [goodTitle, Bool.and_eq_true] at h
        cases kvs with
        | nil =>
          obtain ⟨s, hs⟩ := getOr2_dict [] "text" "title" (by rfl) (by rfl)
          exact ⟨s, by simpa [titleText, pyOr, pyTruthy] using hs⟩
        | cons e rest' =>
          obtain ⟨s, hs⟩ := getOr2_dict (e :: rest') "text" "title" h.1 h.2
          exact ⟨s, by simpa [titleText, pyOr, pyTruthy] using hs⟩
      | none =>
        exact ⟨"", by simp [titleText, pyOr, pyTruthy, getOr2, pyGet, pyGetD, lookupKey]⟩
      | int n =>
        by_cases hn : n = 0
        · exact ⟨"", by simp [titleText, pyOr, pyTruthy, hn, getOr2, pyGet, pyGetD, lookupKey]⟩
        · exact ⟨"", by simp [titleText, pyOr, pyTruthy, hn]⟩
      | str s =>
        by_cases hs : s = ""
        · exact ⟨"", by simp [titleText, pyOr, pyTruthy, hs, getOr2, pyGet, pyGetD, lookupKey]⟩
        · exact ⟨"", by simp [titleText, pyOr, pyTruthy, hs]⟩
      | list ys =>
        cases ys with
        | nil =>
          exact ⟨"", by simp [titleText, pyOr, pyTruthy, getOr2, pyGet, pyGetD, lookupKey]⟩
        | cons y t' => exact ⟨"", by simp [titleText, pyOr, pyTruthy]⟩

theorem extract_row_good (r : PyVal) (h : goodRecord r = true) :
    ∃ row, extract_row r = .ok row ∧ rowFieldsAreStrings row = true := by
  cases r with
  | none => simp [goodRecord] at h
  | str s => simp [goodRecord] at h
  | int n => simp [goodRecord] at h
  | list xs => simp [goodRecord] at h
  | dict kvs =>
    simp only [goodRecord, Bool.and_eq_true] at h
    obtain ⟨⟨⟨hlid, hdp⟩, hpd⟩, hbib⟩ := h
    obtain ⟨slid, hslid⟩ := isStrOrAbsent_getD kvs "lens_id" hlid
    obtain ⟨b, hb, hpr, hti⟩ := goodBiblio_or (pyGetD kvs "biblio" (.dict [])) hbib
    obtain ⟨p, hp, hj1, hj2, hd1, hd2, hk⟩ :=
      goodPubRef_or (pyGetD b "publication_reference" (.dict [])) hpr
    obtain ⟨sj, hsj⟩ := getOr2_dict p "jurisdiction" "country" hj1 hj2
    obtain ⟨sd, hsd⟩ := getOr2_dict p "doc_number" "document_number" hd1 hd2
    obtain ⟨sk, hsk⟩ := isStrOrAbsent_getD p "kind" hk
    obtain ⟨st, hst⟩ := goodTitle_ok (pyGetD b "invention_title" .none) hti
    obtain ⟨sdate, hsdate⟩ := getOr2_dict kvs "date_published" "publication_date" hdp hpd
    refine ⟨mkRow (.str slid) (.str st) (.str sj) (.str sd) (.str sk) (.str sdate),
      ?_, by simp [mkRow, rowFieldsAreStrings, pyIsStr]⟩
    unfold extract_row
    simp only [pyGet, hslid, hb, hp, hsj, hsd, hsk, hst]
    rw [hsdate]

theorem extract_rows_good (items : List PyVal) (h : ∀ r ∈ items, goodRecord r = true) :
    ∃ rows, extract_rows items = .ok rows ∧ rows.length = items.length ∧
      ∀ row ∈ rows, rowFieldsAreStrings row = true := by
  induction items with
  | nil => exact ⟨[], rfl, rfl, by simp⟩
  | cons item rest ih =>
    obtain ⟨row, hrow, hrs⟩ := extract_row_good item (h item (by simp))
    obtain ⟨rows, hrows, hlen, hall⟩ := ih (fun r hr => h r (by simp [hr]))
    refine ⟨row :: rows, by simp [extract_rows, hrow, hrows], by simp [hlen], ?_⟩
    intro r hr
    rcases List.mem_cons.mp hr with h1 | h2
    · subst h1; exact hrs
    · exact hall r h2

/-- Every row produced by normalization is built by `mkRow` (lines 106–123):
its links are derived from its own six data fields. -/
theorem extract_row_shape (item : PyVal) (row : Row) (h : extract_row item = .ok row) :
    ∃ a b c d e f, row = mkRow a b c d e f := by
  unfold extract_row at h
  repeat' split at h
  all_goals first
    | exact Except.noConfusion h
    | (injection h with h'; exact ⟨_, _, _, _, _, _, h'.symm⟩)

theorem mkRow_linkSpec (a b c d e f : PyVal) : linkSpec (mkRow a b c d e f) :=
  ⟨rfl, rfl⟩

theorem extract_rows_linkSpec (items : List PyVal) (rows : List Row)
    (h : extract_rows items = .ok rows) : ∀ row ∈ rows, linkSpec row := by
  induction items generalizing rows with
  | nil =>
    simp only [extract_rows] at h
    injection h with h'
    subst h'
    intro r hr
    exact absurd hr (List.not_mem_nil r)
  | cons item rest ih =>
    simp only [extract_rows] at h
    cases h1 : extract_row item with
    | error e => rw [h1] at h; simp at h
    | ok row =>
      rw [h1] at h
      cases h2 : extract_rows rest with
      | error e => rw [h2] at h; simp at h
      | ok rows' =>
        rw [h2] at h
        simp at h
        subst h
        intro r hr
        rcases List.mem_cons.mp hr with hr1 | hr2
        · obtain ⟨a, b, c, d, e, f, hm⟩ := extract_row_shape item row h1
          rw [hr1, hm]
          exact mkRow_linkSpec a b c d e f
        · exact ih rows' h2 r hr2

theorem extract_row_recordOf (lid j d k : String) :
    extract_row (recordOf lid j d k) =
      .ok (mkRow (.str lid) (.str "") (.str j) (.str d) (.str k) (.str "")) := by
  unfold extract_row recordOf
  by_cases hj : j = "" <;> by_cases hd : d = "" <;>
    simp [pyGet, pyGetD, lookupKey, pyOr, pyTruthy, getOr2, titleText, hj, hd]

theorem extract_rows_len (items : List PyVal) (rows : List Row)
    (h : extract_rows items = .ok rows) : rows.length = items.length := by
  induction items generalizing rows with
  | nil => simp [extract_rows] at h; simp [← h]
  | cons item rest ih =>
    simp only [extract_rows] at h
    cases h1 : extract_row item with
    | error e => rw [h1] at h; simp at h
    | ok row =>
      rw [h1] at h
      cases h2 : extract_rows rest with
      | error e => rw [h2] at h; simp at h
      | ok rows' =>
        rw [h2] at h
        simp at h
        subst h
        simp [ih rows' h2]

theorem searchLoop_stop (resps : Nat → HttpResponse) (max : Int)
    (rows : List Row) (sc : PyVal) (dbg : Debug)
    (h : ¬ ((rows.length : Int) < max)) :
    searchLoop resps max rows sc dbg = .ok (rows, dbg) := by
  unfold searchLoop
  rw [dif_neg h]

theorem searchLoop_204 (resps : Nat → HttpResponse) (max : Int)
    (rows : List Row) (sc : PyVal) (dbg : Debug)
    (hlt : (rows.length : Int) < max) (h : (resps dbg.pages).status = 204) :
    searchLoop resps max rows sc dbg =
      .ok (rows, { dbg with last_status := some 204, pages := dbg.pages + 1 }) := by
  unfold searchLoop
  rw [dif_pos hlt]
  simp [h]

theorem searchLoop_401 (resps : Nat → HttpResponse) (max : Int)
    (rows : List Row) (sc : PyVal) (dbg : Debug)
    (hlt : (rows.length : Int) < max) (h : (resps dbg.pages).status = 401) :
    searchLoop resps max rows sc dbg =
      .error (.authError "401 Unauthorized: bad token or API access not enabled") := by
  unfold searchLoop
  rw [dif_pos hlt]
  simp [h]

theorem searchLoop_403 (resps : Nat → HttpResponse) (max : Int)
    (rows : List Row) (sc : PyVal) (dbg : Debug)
    (hlt : (rows.length : Int) < max) (h : (resps dbg.pages).status = 403) :
    searchLoop resps max rows sc dbg =
      .error (.permissionError "403 Forbidden: API access or plan does not allow") := by
  unfold searchLoop
  rw [dif_pos hlt]
  simp [h]

theorem searchLoop_other (resps : Nat → HttpResponse) (max : Int)
    (rows : List Row) (sc : PyVal) (dbg : Debug)
    (hlt : (rows.length : Int) < max)
    (h204 : (resps dbg.pages).status ≠ 204) (h401 : (resps dbg.pages).status ≠ 401)
    (h403 : (resps dbg.pages).status ≠ 403) (h200 : (resps dbg.pages).status ≠ 200) :
    searchLoop resps max rows sc dbg =
      .error (.transportError (resps dbg.pages).status (resps dbg.pages).text) := by
  unfold searchLoop
  rw [dif_pos hlt]
  simp [h204, h401, h403, h200]

theorem searchLoop_200_first (resps : Nat → HttpResponse) (max : Int)
    (rows : List Row) (dbg : Debug) (js : List (String × PyVal))
    (x : PyVal) (rest : List PyVal) (rows' : List Row)
    (hlt : (rows.length : Int) < max)
    (hst : (resps dbg.pages).status = 200)
    (hbody : (resps dbg.pages).body = .dict js)
    (hdata : pyGetD js "data" .none = .list (x :: rest))
    (hrows : extract_rows (x :: rest) = .ok rows') :
    searchLoop resps max rows .none dbg =
      (if h : pyTruthy (pyGetD js "scroll_id" .none) = false
          ∨ max ≤ ((rows ++ rows'.take (max - rows.length).toNat).length : Int) then
        .ok (rows ++ rows'.take (max - rows.length).toNat,
          ⟨dbg.pages + 1, pyGetD js "scroll_id" .none, some 200,
            (rows ++ rows'.take (max - rows.length).toNat).length⟩)
      else
        searchLoop resps max (rows ++ rows'.take (max - rows.length).toNat)
          (pyGetD js "scroll_id" .none)
          ⟨dbg.pages + 1, pyGetD js "scroll_id" .none, some 200,
            (rows ++ rows'.take (max - rows.length).toNat).length⟩) := by
  conv_lhs => unfold searchLoop
  rw [dif_pos hlt]
  simp only [hst, hbody, hdata, pyOr, pyTruthy, pyIsNone,
    show ((200 : ℕ) = 204) = False from by simp,
    show ((200 : ℕ) = 401) = False from by simp,
    show ((200 : ℕ) = 403) = False from by simp,
    show ((200 : ℕ) ≠ 200) = False from by simp,
    List.isEmpty_cons, Bool.not_false, ite_true, ite_false, if_true, if_false]
  split
  case _ e heq => rw [hrows] at heq; exact Except.noConfusion heq
  case _ rows2 heq =>
    rw [hrows] at heq
    injection heq with h'
    subst h'
    rfl

theorem searchLoop_200_later (resps : Nat → HttpResponse) (max : Int)
    (rows : List Row) (sc : PyVal) (dbg : Debug) (js : List (String × PyVal))
    (x : PyVal) (rest : List PyVal) (rows' : List Row)
    (hlt : (rows.length : Int) < max)
    (hsc : pyIsNone sc = false)
    (hst : (resps dbg.pages).status = 200)
    (hbody : (resps dbg.pages).body = .dict js)
    (hdata : pyGetD js "data" .none = .list (x :: rest))
    (hrows : extract_rows (x :: rest) = .ok rows') :
    searchLoop resps max rows sc dbg =
      (if h : pyTruthy sc = false
          ∨ max ≤ ((rows ++ rows'.take (max - rows.length).toNat).length : Int) then
        .ok (rows ++ rows'.take (max - rows.length).toNat,
          ⟨dbg.pages + 1, dbg.scroll_id, some 200,
            (rows ++ rows'.take (max - rows.length).toNat).length⟩)
      else
        searchLoop resps max (rows ++ rows'.take (max - rows.length).toNat) sc
          ⟨dbg.pages + 1, dbg.scroll_id, some 200,
            (rows ++ rows'.take (max - rows.length).toNat).length⟩) := by
  conv_lhs => unfold searchLoop
  rw [dif_pos hlt]
  simp only [hst, hbody, hdata, hsc, pyOr, pyTruthy,
    show ((200 : ℕ) = 204) = False from by simp,
    show ((200 : ℕ) = 401) = False from by simp,
    show ((200 : ℕ) = 403) = False from by simp,
    show ((200 : ℕ) ≠ 200) = False from by simp,
    List.isEmpty_cons, Bool.not_false, Bool.false_eq_true, ite_true, ite_false,
    if_true, if_false]
  split
  case _ e heq => rw [hrows] at heq; exact Except.noConfusion heq
  case _ rows2 heq =>
    rw [hrows] at heq
    injection heq with h'
    subst h'
    rfl

/-- C1: with maxResults = 250 (pageSize = min(100, 250) = 100) and an
upstream returning 100, 100 and 50 records over three pages with a stable
cursor, the search returns exactly 250 rows with diagnostics.pages = 3; and
with maxResults = 10 and a first page of 100 records it returns exactly 10
rows and stops after that single page request (pages = 1). -/
theorem c1_pagination_and_cap
    (xs0 xs1 xs2 : List PyVal) (sid : String) (rows0 rows1 rows2 : List Row)
    (hsid : sid ≠ "")
    (h0 : xs0.length = 100) (h1 : xs1.length = 100) (h2 : xs2.length = 50)
    (he0 : extract_rows xs0 = .ok rows0) (he1 : extract_rows xs1 = .ok rows1)
    (he2 : extract_rows xs2 = .ok rows2) :
    (∃ rows dbg, lens_search_with_scroll (pages3 xs0 xs1 xs2 sid) 250 = .ok (rows, dbg)
      ∧ rows.length = 250 ∧ dbg.pages = 3)
    ∧ (∀ (keyword scope ttl : String) (df : Option String),
        (initialPayload keyword scope df 250 ttl).size = 100)
    ∧ (∀ (xs : List PyVal) (rows' : List Row) (sid2 : String),
        xs.length = 100 → extract_rows xs = .ok rows' →
        ∃ rowsB dbgB, lens_search_with_scroll (onePage xs sid2) 10 = .ok (rowsB, dbgB)
          ∧ rowsB.length = 10 ∧ dbgB.pages = 1) := by
  obtain ⟨x0, rest0, rfl⟩ := List.exists_cons_of_ne_nil
    (show xs0 ≠ [] by intro hnil; rw [hnil] at h0; simp at h0)
  obtain ⟨x1, rest1, rfl⟩ := List.exists_cons_of_ne_nil
    (show xs1 ≠ [] by intro hnil; rw [hnil] at h1; simp at h1)
  obtain ⟨x2, rest2, rfl⟩ := List.exists_cons_of_ne_nil
    (show xs2 ≠ [] by intro hnil; rw [hnil] at h2; simp at h2)
  have hlen0 : rows0.length = 100 := by rw [extract_rows_len _ _ he0]; exact h0
  have hlen1 : rows1.length = 100 := by rw [extract_rows_len _ _ he1]; exact h1
  have hlen2 : rows2.length = 50 := by rw [extract_rows_len _ _ he2]; exact h2
  have htruthy : pyTruthy (.str sid) = true := by simp [pyTruthy, hsid]
  refine ⟨?_, fun keyword scope ttl df => rfl, ?_⟩
  · -- three-page scenario
    unfold lens_search_with_scroll
    rw [searchLoop_200_first (pages3 (x0 :: rest0) (x1 :: rest1) (x2 :: rest2) sid) 250
      [] ⟨0, .none, Option.none, 0⟩
      [("data", .list (x0 :: rest0)), ("scroll_id", .str sid)] x0 rest0 rows0
      (by simp) rfl rfl rfl he0]
    rw [show pyGetD [("data", PyVal.list (x0 :: rest0)), ("scroll_id", PyVal.str sid)]
      "scroll_id" PyVal.none = PyVal.str sid from rfl]
    simp only [List.nil_append, List.length_nil, Nat.cast_zero, sub_zero]
    rw [show (250 : Int).toNat = 250 from rfl]
    rw [List.take_of_length_le (by rw [hlen0]; omega : rows0.length ≤ 250)]
    rw [dif_neg (by simp [htruthy, hlen0])]
    rw [searchLoop_200_later (pages3 (x0 :: rest0) (x1 :: rest1) (x2 :: rest2) sid) 250
      rows0 (.str sid) ⟨1, .str sid, some 200, rows0.length⟩
      [("data", .list (x1 :: rest1)), ("scroll_id", .str sid)] x1 rest1 rows1
      (by rw [hlen0]; omega) rfl rfl rfl rfl he1]
    rw [show ((250 : Int) - ((rows0.length : ℕ) : Int)).toNat = 150 by
      rw [hlen0]; rfl]
    rw [List.take_of_length_le (by rw [hlen1]; omega : rows1.length ≤ 150)]
    rw [dif_neg (by simp [htruthy, hlen0, hlen1])]
    rw [searchLoop_200_later (pages3 (x0 :: rest0) (x1 :: rest1) (x2 :: rest2) sid) 250
      (rows0 ++ rows1) (.str sid) ⟨2, .str sid, some 200, (rows0 ++ rows1).length⟩
      [("data", .list (x2 :: rest2)), ("scroll_id", .str sid)] x2 rest2 rows2
      (by simp [hlen0, hlen1]) rfl rfl rfl rfl he2]
    rw [show ((250 : Int) - (((rows0 ++ rows1).length : ℕ) : Int)).toNat = 50 by
      simp only [List.length_append, hlen0, hlen1]; rfl]
    rw [List.take_of_length_le (by rw [hlen2] : rows2.length ≤ 50)]
    rw [dif_pos (Or.inr (by simp [hlen0, hlen1, hlen2]))]
    refine ⟨_, _, rfl, ?_, rfl⟩
    simp [hlen0, hlen1, hlen2]
  · -- cap scenario
    intro xs rows' sid2 hxs he
    obtain ⟨x, rest, rfl⟩ := List.exists_cons_of_ne_nil
      (show xs ≠ [] by intro hnil; rw [hnil] at hxs; simp at hxs)
    have hlen : rows'.length = 100 := by rw [extract_rows_len _ _ he]; exact hxs
    unfold lens_search_with_scroll
    rw [searchLoop_200_first (onePage (x :: rest) sid2) 10
      [] ⟨0, .none, Option.none, 0⟩
      [("data", .list (x :: rest)), ("scroll_id", .str sid2)] x rest rows'
      (by simp) rfl rfl rfl he]
    simp only [List.nil_append, List.length_nil, Nat.cast_zero, sub_zero]
    rw [show (10 : Int).toNat = 10 from rfl]
    rw [dif_pos (Or.inr (by simp [List.length_take, hlen]))]
    refine ⟨_, _, rfl, ?_, rfl⟩
    simp [List.length_take, hlen]

theorem extract_rows_replicate (n : Nat) (r : PyVal) (row : Row)
    (h : extract_row r = .ok row) :
    extract_rows (List.replicate n r) = .ok (List.replicate n row) := by
  induction n with
  | zero => rfl
  | succ m ih => simp [List.replicate_succ, extract_rows, h, ih]

/-- C1 witness: the pagination and cap scenario at concrete inputs. -/
theorem c1_witness :
    (∃ rows dbg, lens_search_with_scroll
        (pages3 (List.replicate 100 (PyVal.dict [])) (List.replicate 100 (PyVal.dict []))
          (List.replicate 50 (PyVal.dict [])) "scroll-1") 250 = .ok (rows, dbg)
      ∧ rows.length = 250 ∧ dbg.pages = 3)
    ∧ (initialPayload "laser" "title+abstract" Option.none 250 "1m").size = 100
    ∧ (∃ rowsB dbgB, lens_search_with_scroll
        (onePage (List.replicate 100 (PyVal.dict [])) "scroll-1") 10 = .ok (rowsB, dbgB)
      ∧ rowsB.length = 10 ∧ dbgB.pages = 1) := by
  have h := c1_pagination_and_cap (List.replicate 100 (PyVal.dict []))
    (List.replicate 100 (PyVal.dict [])) (List.replicate 50 (PyVal.dict []))
    "scroll-1" (List.replicate 100 emptyRow) (List.replicate 100 emptyRow)
    (List.replicate 50 emptyRow) (by decide) (by simp) (by simp) (by simp)
    (extract_rows_replicate 100 _ _ rfl) (extract_rows_replicate 100 _ _ rfl)
    (extract_rows_replicate 50 _ _ rfl)
  exact ⟨h.1, h.2.1 "laser" "title+abstract" "1m" Option.none,
    h.2.2 (List.replicate 100 (PyVal.dict [])) (List.replicate 100 emptyRow) "scroll-1"
      (by simp) (extract_rows_replicate 100 _ _ rfl)⟩

/-- C2: inside the pagination loop, a 204 stops the loop and returns the rows
accumulated so far (on the first call: zero rows and pages = 1); a 401 fails
the search with the auth error; a 403 with the permission error; any other
non-200 with the transport error carrying the status code and raw body; and
every classified failure aborts the whole search with an error value that
carries no rows. -/
theorem c2_status_classification :
    (∀ (resps : Nat → HttpResponse) (max : Int) (rows : List Row) (sc : PyVal)
      (dbg : Debug), (rows.length : Int) < max → (resps dbg.pages).status = 204 →
      searchLoop resps max rows sc dbg =
        .ok (rows, { dbg with last_status := some 204, pages := dbg.pages + 1 }))
    ∧ (∀ (resps : Nat → HttpResponse) (max : Int) (rows : List Row) (sc : PyVal)
      (dbg : Debug), (rows.length : Int) < max → (resps dbg.pages).status = 401 →
      searchLoop resps max rows sc dbg =
        .error (.authError "401 Unauthorized: bad token or API access not enabled"))
    ∧ (∀ (resps : Nat → HttpResponse) (max : Int) (rows : List Row) (sc : PyVal)
      (dbg : Debug), (rows.length : Int) < max → (resps dbg.pages).status = 403 →
      searchLoop resps max rows sc dbg =
        .error (.permissionError "403 Forbidden: API access or plan does not allow"))
    ∧ (∀ (resps : Nat → HttpResponse) (max : Int) (rows : List Row) (sc : PyVal)
      (dbg : Debug), (rows.length : Int) < max →
      (resps dbg.pages).status ≠ 204 → (resps dbg.pages).status ≠ 401 →
      (resps dbg.pages).status ≠ 403 → (resps dbg.pages).status ≠ 200 →
      searchLoop resps max rows sc dbg =
        .error (.transportError (resps dbg.pages).status (resps dbg.pages).text))
    ∧ (∀ (resps : Nat → HttpResponse) (max : Int), 0 < max → (resps 0).status = 204 →
      lens_search_with_scroll resps max = .ok ([], ⟨1, PyVal.none, some 204, 0⟩)) := by
  refine ⟨searchLoop_204, searchLoop_401, searchLoop_403, searchLoop_other, ?_⟩
  intro resps max hmax h204
  unfold lens_search_with_scroll
  rw [searchLoop_204 resps max [] PyVal.none ⟨0, PyVal.none, Option.none, 0⟩
    (by simpa using hmax) h204]

/-- C2 witness: the status classification at concrete loop states. -/
theorem c2_witness :
    searchLoop (fun _ => ⟨204, "", PyVal.none⟩) 5 [] PyVal.none
      ⟨0, PyVal.none, Option.none, 0⟩ = .ok ([], ⟨1, PyVal.none, some 204, 0⟩)
    ∧ searchLoop (fun _ => ⟨401, "", PyVal.none⟩) 5 [] PyVal.none
      ⟨0, PyVal.none, Option.none, 0⟩ =
      .error (.authError "401 Unauthorized: bad token or API access not enabled")
    ∧ searchLoop (fun _ => ⟨403, "", PyVal.none⟩) 5 [] PyVal.none
      ⟨0, PyVal.none, Option.none, 0⟩ =
      .error (.permissionError "403 Forbidden: API access or plan does not allow")
    ∧ searchLoop (fun _ => ⟨500, "boom", PyVal.none⟩) 5 [] PyVal.none
      ⟨0, PyVal.none, Option.none, 0⟩ = .error (.transportError 500 "boom")
    ∧ lens_search_with_scroll (fun _ => ⟨204, "", PyVal.none⟩) 5 =
      .ok ([], ⟨1, PyVal.none, some 204, 0⟩) := by
  refine ⟨?_, ?_, ?_, ?_, ?_⟩
  · exact c2_status_classification.1 _ 5 [] _ _ (by decide) rfl
  · exact c2_status_classification.2.1 _ 5 [] _ _ (by decide) rfl
  · exact c2_status_classification.2.2.1 _ 5 [] _ _ (by decide) rfl
  · exact c2_status_classification.2.2.2.1 _ 5 [] _ _ (by decide)
      (by decide) (by decide) (by decide) (by decide)
  · exact c2_status_classification.2.2.2.2 _ 5 (by decide) rfl

/-- C3: a 429 triggers a sleep of backoffSeconds*(attemptNumber+1) before the
retry, the linear schedule; in particular for responses [429, 429, 200]
exactly two sleeps (backoff*1 then backoff*2) occur before the 200 is
returned, and with the defaults attempts 0..3 sleep 2, 4, 6, 8 seconds. -/
theorem c3_linear_backoff (resp : Nat → HttpResponse) (max_retries k : Nat)
    (backoff_sec : ℚ) (hk : k ≤ max_retries)
    (h429 : ∀ i, i < k → (resp i).status = 429)
    (hstop : (resp k).status ≠ 429) :
    post_with_retry resp max_retries backoff_sec =
      (resp k, (List.range k).map (fun i => backoff_sec * ((i + 1 : ℕ) : ℚ))) := by
  unfold post_with_retry
  have h := postLoop_spec resp backoff_sec k 0 max_retries [] hk
    (fun i hi => by simpa using h429 i hi) (by simpa using hstop)
  simpa using h

/-- C3 witness: responses [429, 429, 200] give sleeps [2, 4] before the 200;
four leading 429s give the full default schedule [2, 4, 6, 8]. -/
theorem c3_witness :
    post_with_retry
      (fun n => if n < 2 then ⟨429, "", PyVal.none⟩ else ⟨200, "ok", PyVal.none⟩) 4 2 =
      (⟨200, "ok", PyVal.none⟩, [2, 4])
    ∧ post_with_retry
      (fun n => if n < 4 then ⟨429, "", PyVal.none⟩ else ⟨200, "ok", PyVal.none⟩) 4 2 =
      (⟨200, "ok", PyVal.none⟩, [2, 4, 6, 8]) := by
  constructor
  · have h := c3_linear_backoff
      (fun n => if n < 2 then ⟨429, "", PyVal.none⟩ else ⟨200, "ok", PyVal.none⟩)
      4 2 2 (by decide) (by decide) (by decide)
    rw [h]
    norm_num [List.range_succ]
  · have h := c3_linear_backoff
      (fun n => if n < 4 then ⟨429, "", PyVal.none⟩ else ⟨200, "ok", PyVal.none⟩)
      4 4 2 (by decide) (by decide) (by decide)
    rw [h]
    norm_num [List.range_succ]

/-- C4: when the initial attempt and all maxRetries additional attempts get
429, the last 429 response is returned as-is (the model has no exception
path, so nothing is raised). -/
theorem c4_exhausted_returns_last (resp : Nat → HttpResponse) (max_retries : Nat)
    (backoff_sec : ℚ) (h : ∀ i, i ≤ max_retries → (resp i).status = 429) :
    (post_with_retry resp max_retries backoff_sec).1 = resp max_retries ∧
    (post_with_retry resp max_retries backoff_sec).1.status = 429 := by
  have hmain : (post_with_retry resp max_retries backoff_sec).1 = resp max_retries := by
    unfold post_with_retry
    have h2 := postLoop_all429 resp backoff_sec max_retries 0 []
      (fun i hi => h i (by omega))
    simpa using h2
  exact ⟨hmain, by rw [hmain]; exact h max_retries le_rfl⟩

/-- C4 witness: all attempts rate-limited with the defaults. -/
theorem c4_witness :
    (post_with_retry (fun _ => ⟨429, "rate limited", PyVal.none⟩) 4 2).1 =
      (⟨429, "rate limited", PyVal.none⟩ : HttpResponse) ∧
    (post_with_retry (fun _ => ⟨429, "rate limited", PyVal.none⟩) 4 2).1.status = 429 :=
  c4_exhausted_returns_last _ 4 2 (fun i _ => rfl)

/-- C5 counterexample: the claim quantifies over malformed records whose
fields of interest may be "absent, null, a mapping, or a list of mappings".
A `biblio` that is a list of mappings makes `extract_rows` raise
(`list.get` does not exist → AttributeError), refuting "never fails"; and a
record whose `jurisdiction` and `country` are both present-but-null yields a
row whose jurisdiction field is None, not a string, refuting "all eight
fields … as strings". -/
theorem c5_counterexample :
    extract_rows [PyVal.dict [("biblio", PyVal.list [PyVal.dict []])]] =
      Except.error "AttributeError"
    ∧ extract_rows [PyVal.dict [("biblio", PyVal.dict [("publication_reference",
        PyVal.dict [("jurisdiction", PyVal.none), ("country", PyVal.none)])])]] =
      .ok [mkRow (PyVal.str "") (PyVal.str "") PyVal.none (PyVal.str "")
        (PyVal.str "") (PyVal.str "")]
    ∧ pyIsStr (mkRow (PyVal.str "") (PyVal.str "") PyVal.none (PyVal.str "")
        (PyVal.str "") (PyVal.str "")).jurisdiction = false :=
  ⟨rfl, rfl, rfl⟩

/-- C5 (amended): for input records that are mappings whose `biblio` and
`biblio.publication_reference` are each absent, null, or a mapping, and whose
leaf fields of interest are absent or strings (`invention_title` itself may
additionally be a mapping, a list, or any other value, with the same
absent-or-string condition on the `text`/`title` entries of the mapping
actually consulted), `extract_rows` never fails and returns exactly one row
per input record with all eight fields strings (the two link fields are
strings by construction). -/
theorem c5_normalizer_total_amended (items : List PyVal)
    (h : ∀ r ∈ items, goodRecord r = true) :
    ∃ rows, extract_rows items = .ok rows ∧ rows.length = items.length ∧
      ∀ row ∈ rows, rowFieldsAreStrings row = true :=
  extract_rows_good items h

/-- C5 witness: three well-behaved records (a fully-populated one, an empty
mapping, a null biblio) normalize totally into string-valued rows. -/
theorem c5_witness :
    ∃ rows, extract_rows [recordOf "x1" "US" "123" "A1", PyVal.dict [],
        PyVal.dict [("biblio", PyVal.none)]] = .ok rows ∧
      rows.length = 3 ∧ ∀ row ∈ rows, rowFieldsAreStrings row = true := by
  have h := c5_normalizer_total_amended [recordOf "x1" "US" "123" "A1",
    PyVal.dict [], PyVal.dict [("biblio", PyVal.none)]] (by decide)
  simpa using h

/-- C6: each scope yields exactly the specified must-clause (title /
abstract / title+abstract with minimum_should_match 1 / default three-way
should with minimum_should_match 1); a present non-empty dateFrom appends
exactly one range filter on date_published in a boolean filter list, and an
omitted dateFrom yields no filter entry. -/
theorem c6_query_builder :
    (∀ kw : String, build_query kw "title" Option.none =
      .dict [("bool", .dict [("must",
        .list [.dict [("match", .dict [("title", .str (pyStrip kw))])]])])])
    ∧ (∀ kw : String, build_query kw "abstract" Option.none =
      .dict [("bool", .dict [("must",
        .list [.dict [("match", .dict [("abstract", .str (pyStrip kw))])]])])])
    ∧ (∀ kw : String, build_query kw "title+abstract" Option.none =
      .dict [("bool", .dict [("must",
        .list [.dict [("bool", .dict [
          ("should", .list [.dict [("match", .dict [("title", .str (pyStrip kw))])],
            .dict [("match", .dict [("abstract", .str (pyStrip kw))])]]),
          ("minimum_should_match", .int 1)])]])])])
    ∧ (∀ kw scope : String, scope ≠ "title" → scope ≠ "abstract" →
        scope ≠ "title+abstract" →
        build_query kw scope Option.none =
        .dict [("bool", .dict [("must",
          .list [.dict [("bool", .dict [
            ("should", .list [.dict [("match", .dict [("title", .str (pyStrip kw))])],
              .dict [("match", .dict [("abstract", .str (pyStrip kw))])],
              .dict [("match", .dict [("claim", .str (pyStrip kw))])]]),
            ("minimum_should_match", .int 1)])]])])])
    ∧ (∀ kw scope d : String, d ≠ "" → ∃ m,
        build_query kw scope (some d) =
          .dict [("bool", .dict [("must", m), ("filter",
            .list [.dict [("range",
              .dict [("date_published", .dict [("gte", .str d)])])]])])]
        ∧ build_query kw scope Option.none =
          .dict [("bool", .dict [("must", m)])]) := by
  refine ⟨fun kw => rfl, fun kw => rfl, fun kw => rfl, ?_, ?_⟩
  · intro kw scope h1 h2 h3
    have e1 : (scope == "title") = false := beq_eq_false_iff_ne.mpr h1
    have e2 : (scope == "abstract") = false := beq_eq_false_iff_ne.mpr h2
    have e3 : (scope == "title+abstract") = false := beq_eq_false_iff_ne.mpr h3
    simp [build_query, matchClause, e1, e2, e3]
  · intro kw scope d hd
    have ed : (d == "") = false := beq_eq_false_iff_ne.mpr hd
    by_cases s1 : scope = "title"
    · exact ⟨.list [.dict [("match", .dict [("title", .str (pyStrip kw))])]],
        by simp [build_query, matchClause, rangeClause, s1, ed],
        by simp [build_query, matchClause, s1]⟩
    · by_cases s2 : scope = "abstract"
      · exact ⟨.list [.dict [("match", .dict [("abstract", .str (pyStrip kw))])]],
          by simp [build_query, matchClause, rangeClause, s1, s2, ed],
          by simp [build_query, matchClause, s1, s2]⟩
      · by_cases s3 : scope = "title+abstract"
        · exact ⟨.list [.dict [("bool", .dict [
              ("should", .list [.dict [("match", .dict [("title", .str (pyStrip kw))])],
                .dict [("match", .dict [("abstract", .str (pyStrip kw))])]]),
              ("minimum_should_match", .int 1)])]],
            by simp [build_query, matchClause, rangeClause, s1, s2, s3, ed],
            by simp [build_query, matchClause, s1, s2, s3]⟩
        · have e1 : (scope == "title") = false := beq_eq_false_iff_ne.mpr s1
          have e2 : (scope == "abstract") = false := beq_eq_false_iff_ne.mpr s2
          have e3 : (scope == "title+abstract") = false := beq_eq_false_iff_ne.mpr s3
          exact ⟨.list [.dict [("bool", .dict [
              ("should", .list [.dict [("match", .dict [("title", .str (pyStrip kw))])],
                .dict [("match", .dict [("abstract", .str (pyStrip kw))])],
                .dict [("match", .dict [("claim", .str (pyStrip kw))])]]),
              ("minimum_should_match", .int 1)])]],
            by simp [build_query, matchClause, rangeClause, e1, e2, e3, ed],
            by simp [build_query, matchClause, e1, e2, e3]⟩

/-- C6 witness: the default scope at a concrete keyword, and the date filter
at a concrete date. -/
theorem c6_witness :
    build_query " laser welding " "title+abstract+claims" Option.none =
      .dict [("bool", .dict [("must",
        .list [.dict [("bool", .dict [
          ("should", .list [.dict [("match", .dict [("title", .str "laser welding")])],
            .dict [("match", .dict [("abstract", .str "laser welding")])],
            .dict [("match", .dict [("claim", .str "laser welding")])]]),
          ("minimum_should_match", .int 1)])]])])]
    ∧ (∃ m, build_query "laser" "title" (some "2018-01-01") =
        .dict [("bool", .dict [("must", m), ("filter",
          .list [.dict [("range",
            .dict [("date_published", .dict [("gte", .str "2018-01-01")])])]])])]
      ∧ build_query "laser" "title" Option.none =
        .dict [("bool", .dict [("must", m)])]) := by
  constructor
  · have h := c6_query_builder.2.2.2.1 " laser welding " "title+abstract+claims"
      (by decide) (by decide) (by decide)
    rw [h]
    rw [show pyStrip " laser welding " = "laser welding" from rfl]
  · exact c6_query_builder.2.2.2.2 "laser" "title" "2018-01-01" (by decide)

/-- C7: every normalized row has
lens_link = https://www.lens.org/lens/patent/<lens_id> (trailing slash when
lens_id is empty), and for string-valued reference fields the
google_patents_link is the concatenated URL when jurisdiction, doc_number
and kind are all non-empty, drops the kind suffix when only jurisdiction and
doc_number are non-empty, and is empty otherwise. -/
theorem c7_links :
    (∀ (items : List PyVal) (rows : List Row), extract_rows items = .ok rows →
      ∀ row ∈ rows, linkSpec row)
    ∧ (∀ lid j d k : String, ∃ row,
        extract_rows [recordOf lid j d k] = .ok [row] ∧
        row.lens_link = "https://www.lens.org/lens/patent/" ++ lid ∧
        row.google_patents_link =
          (if j ≠ "" ∧ d ≠ "" ∧ k ≠ "" then
            "https://patents.google.com/patent/" ++ j ++ d ++ k
          else if j ≠ "" ∧ d ≠ "" then
            "https://patents.google.com/patent/" ++ j ++ d
          else "")) := by
  refine ⟨extract_rows_linkSpec, ?_⟩
  intro lid j d k
  refine ⟨mkRow (.str lid) (.str "") (.str j) (.str d) (.str k) (.str ""),
    by simp [extract_rows, extract_row_recordOf], rfl, ?_⟩
  by_cases hj : j = "" <;> by_cases hd : d = "" <;> by_cases hk : k = "" <;>
    simp [mkRow, pyTruthy, pyToStr, hj, hd, hk]

/-- C7 witness: link construction at US/123456/A1, at a missing kind, and at
an empty lens_id (trailing-slash URL). -/
theorem c7_witness :
    (∃ row, extract_rows [recordOf "081-914" "US" "123456" "A1"] = .ok [row] ∧
      row.lens_link = "https://www.lens.org/lens/patent/081-914" ∧
      row.google_patents_link = "https://patents.google.com/patent/US123456A1")
    ∧ (∃ row, extract_rows [recordOf "" "US" "123456" ""] = .ok [row] ∧
      row.lens_link = "https://www.lens.org/lens/patent/" ∧
      row.google_patents_link = "https://patents.google.com/patent/US123456")
    ∧ (∀ row ∈ [emptyRow], linkSpec row) := by
  refine ⟨?_, ?_, ?_⟩
  · obtain ⟨row, hrow, hl, hg⟩ := c7_links.2 "081-914" "US" "123456" "A1"
    rw [if_pos (by decide)] at hg
    exact ⟨row, hrow, hl, hg.trans (by decide)⟩
  · obtain ⟨row, hrow, hl, hg⟩ := c7_links.2 "" "US" "123456" ""
    rw [if_neg (by decide), if_pos (by decide)] at hg
    exact ⟨row, hrow, hl, hg.trans (by decide)⟩
  · exact c7_links.1 [PyVal.dict []] [emptyRow] rfl

/-- C8: a token that is empty or only whitespace (empty after strip) is
rejected by the run handler with the usage error before the search — and
hence before any network request — is invoked; the outcome does not depend
on the upstream at all. -/
theorem c8_usage_guard (resps : Nat → HttpResponse) (token : String)
    (max_results : Int) (h : pyStrip token = "") :
    runSearchHandler resps token max_results = .usageError := by
  unfold runSearchHandler
  rw [if_pos h]

/-- C8 witness: a whitespace-only token is rejected. -/
theorem c8_witness :
    runSearchHandler (fun _ => ⟨200, "", PyVal.none⟩) "   " 200 = .usageError :=
  c8_usage_guard _ _ _ (by decide)

/-- C9: a non-positive max_results makes the while-condition false at entry,
so no page request is issued and the search returns zero rows with
pages = 0, returned = 0, last_status = None and scroll_id = None. -/
theorem c9_nonpositive_max (resps : Nat → HttpResponse) (max_results : Int)
    (h : max_results ≤ 0) :
    lens_search_with_scroll resps max_results =
      .ok ([], ⟨0, PyVal.none, Option.none, 0⟩) := by
  unfold lens_search_with_scroll
  exact searchLoop_stop resps max_results [] PyVal.none ⟨0, PyVal.none, Option.none, 0⟩
    (by simp only [List.length_nil, Nat.cast_zero]; omega)

/-- C9 witness: max_results = -3. -/
theorem c9_witness :
    lens_search_with_scroll (fun _ => ⟨200, "", PyVal.none⟩) (-3) =
      .ok ([], ⟨0, PyVal.none, Option.none, 0⟩) :=
  c9_nonpositive_max _ (-3) (by decide)

/-- C10: build_query strips the keyword itself (line 39), so its result is
invariant under leading/trailing whitespace in the keyword. -/
theorem c10_strip_invariant (keyword scope : String) (date_from : Option String) :
    build_query keyword scope date_from =
      build_query (pyStrip keyword) scope date_from := by
  unfold build_query
  rw [pyStrip_idem]
